import Mathlib

/-!
Verification development for the claim-verification pipeline:
claim routing (src/backend/services/claim-router.js),
evidence sufficiency assessment (src/backend/services/evidence-assessment.js),
evidence deduplication/ranking (src/backend/services/verification-pipeline.js),
and the self-critique/correction loop (src/backend/agents/critique-agent.js).

Strings model JavaScript strings; rational numbers model JavaScript number
arithmetic on the decimal constants the code uses; `Option` models
`undefined`-able fields; an `Except` argument models the outcome of an
external completion call that may throw.
-/

/-! ### JavaScript string helpers -/

/-- Model of JavaScript `String.prototype.toLowerCase` (ASCII case folding). -/
def jsToLower (s : String) : String := String.mk (s.data.map Char.toLower)

/-- Helper for substring search: does the needle occur in some suffix of the hay? -/
def inclAux (needle : List Char) : List Char → Bool
  | [] => needle.isEmpty
  | c :: t => needle.isPrefixOf (c :: t) || inclAux needle t

/-- Model of JavaScript `hay.includes(needle)`: contiguous substring test. -/
def jsIncludes (hay needle : String) : Bool := inclAux needle.data hay.data

/-! ### Data model -/

/-- Claim analysis produced once per claim (src/backend/services/prompts.js schema,
consumed by claim-router.js and evidence-assessment.js). -/
structure ClaimAnalysis where
  type : String
  entities : List String
  keywords : List String
  temporality : String
  complexity : String
  isRecent : Bool
deriving DecidableEq, Repr

/-- One retrieved evidence source, as pushed by retrieveEvidence /
runVerificationAgent in the source. -/
structure EvidenceRecord where
  title : String
  url : String
  snippet : String
  credibility : String
  source : String
  score : Option ℚ
  verdict : Option String := none
deriving DecidableEq, Repr

/-- A citation attached to a verdict (index into the evidence array, 1-based). -/
structure Citation where
  index : Nat
  title : String
  url : String
  relevance : String
deriving DecidableEq, Repr

/-- The structured verification verdict. `citations` is `none` when the
completion emitted no `citations` field. -/
structure Verdict where
  verdict : String
  confidence : ℚ
  reasoning : String
  citations : Option (List Citation)
deriving DecidableEq, Repr

/-- One issue raised by the critique agent (its schema restricts `type` to seven
tags and `severity` to critical/major/minor; we carry them as strings as the
correction code does). -/
structure CritiqueIssue where
  type : String
  severity : String
  description : String
deriving DecidableEq, Repr

/-- Result of the self-critique stage. -/
structure CritiqueResult where
  isValid : Bool
  confidence : ℚ
  issues : List CritiqueIssue
  suggestions : List String
  overallAssessment : String
deriving DecidableEq, Repr

/-- Output of assessEvidenceSufficiency. -/
structure SufficiencyAssessment where
  isSufficient : Bool
  score : ℚ
  quantity : ℚ
  quality : ℚ
  relevance : ℚ
  credibility : ℚ
  missingAspects : List String
  recommendation : String
deriving DecidableEq, Repr

/-! ### Claim router (src/backend/services/claim-router.js) -/

def VerificationStrategy.SIMPLE : String := "simple"

def VerificationStrategy.HYBRID : String := "hybrid"

def VerificationStrategy.AGENTIC : String := "agentic"

/-- The `needsAgenticVerification` disjunction inside `routeClaim`. -/
def needsAgenticVerification (a : ClaimAnalysis) : Bool :=
  a.complexity == "complex" ||
  decide (a.entities.length > 3) ||
  (a.temporality == "current" && a.isRecent) ||
  a.type == "statistical" ||
  a.type == "numerical" ||
  a.keywords.any (fun kw =>
    ["controversial", "disputed", "alleged", "reportedly", "claims"].contains (jsToLower kw))

/-- The `canUseSimpleVerification` conjunction inside `routeClaim`. -/
def canUseSimpleVerification (a : ClaimAnalysis) : Bool :=
  (a.temporality == "timeless" || a.temporality == "historical") &&
  a.complexity == "simple" &&
  decide (a.entities.length ≤ 1) &&
  ["fact", "historical", "biographical", "scientific"].contains a.type

/-- `routeClaim`: agentic check first, then simple, else hybrid. -/
def routeClaim (a : ClaimAnalysis) : String :=
  if needsAgenticVerification a then VerificationStrategy.AGENTIC
  else if canUseSimpleVerification a then VerificationStrategy.SIMPLE
  else VerificationStrategy.HYBRID

/-! ### Evidence sufficiency assessment (src/backend/services/evidence-assessment.js) -/

/-- `credibilityScores[e.credibility?.toLowerCase()] || 0.5`. -/
def credibilityWeight (c : String) : ℚ :=
  if jsToLower c == "high" then 1
  else if jsToLower c == "medium" then 0.7
  else if jsToLower c == "low" then 0.4
  else if jsToLower c == "very_low" then 0.2
  else 0.5

/-- Sum of credibility weights over an evidence list. -/
def sumCred (l : List EvidenceRecord) : ℚ :=
  (l.map (fun e => credibilityWeight e.credibility)).sum

/-- Sum of snippet lengths over an evidence list. -/
def sumSnip (l : List EvidenceRecord) : ℚ :=
  (l.map (fun e => (e.snippet.length : ℚ))).sum

/-- `quantity = min(numSources / 3, 1)`. -/
def quantityScore (l : List EvidenceRecord) : ℚ := min ((l.length : ℚ) / 3) 1

/-- `avgCredibility`: mean credibility weight. -/
def avgCredibility (l : List EvidenceRecord) : ℚ := sumCred l / l.length

/-- `avgSnippetLength`: mean snippet length. -/
def avgSnippetLength (l : List EvidenceRecord) : ℚ := sumSnip l / l.length

/-- `relevance = min(avgSnippetLength / 200, 1)`. -/
def relevanceScore (l : List EvidenceRecord) : ℚ := min (avgSnippetLength l / 200) 1

/-- `new Set(evidence.map(e => e.source).filter(Boolean))` as a duplicate-free list. -/
def sourceTypesList (l : List EvidenceRecord) : List String :=
  ((l.map (fun e => e.source)).filter (fun s => s != "")).dedup

/-- `diversityScore = min(sourceTypes.size / 2, 1)`. -/
def diversityScore (l : List EvidenceRecord) : ℚ :=
  min (((sourceTypesList l).length : ℚ) / 2) 1

/-- Does some evidence snippet or title mention the entity (case-insensitive)? -/
def entityMentioned (l : List EvidenceRecord) (entity : String) : Bool :=
  l.any (fun e =>
    jsIncludes (jsToLower e.snippet) (jsToLower entity) ||
    jsIncludes (jsToLower e.title) (jsToLower entity))

/-- Coverage: 1.0 unless the claim is complex with entities, in which case the
fraction of entities mentioned in the evidence. -/
def coverageScore (l : List EvidenceRecord) (a : ClaimAnalysis) : ℚ :=
  if a.complexity == "complex" then
    if a.entities.length > 0 then
      ((a.entities.filter (entityMentioned l)).length : ℚ) / a.entities.length
    else 1
  else 1

/-- `quality = 0.4*credibility + 0.3*relevance + 0.15*diversity + 0.15*coverage`. -/
def qualityScore (l : List EvidenceRecord) (a : ClaimAnalysis) : ℚ :=
  avgCredibility l * 0.4 + relevanceScore l * 0.3 +
    diversityScore l * 0.15 + coverageScore l a * 0.15

/-- `score = 0.3*quantity + 0.7*quality`. -/
def overallScore (l : List EvidenceRecord) (a : ClaimAnalysis) : ℚ :=
  quantityScore l * 0.3 + qualityScore l a * 0.7

/-- `isSufficient = numSources >= 2 && score >= 0.6 && quality >= 0.6`. -/
def sufficientFlag (l : List EvidenceRecord) (a : ClaimAnalysis) : Bool :=
  decide (l.length ≥ 2) && decide (overallScore l a ≥ 0.6) && decide (qualityScore l a ≥ 0.6)

/-- Count of sources whose credibility lower-cases to high/very_high. -/
def highCredCount (l : List EvidenceRecord) : Nat :=
  (l.filter (fun e =>
    jsToLower e.credibility == "high" || jsToLower e.credibility == "very_high")).length

/-- The `missingAspects` pushes, in source order (quantity, credibility,
relevance, diversity, coverage, temporal alignment). -/
def missingAspectsList (l : List EvidenceRecord) (a : ClaimAnalysis) : List String :=
  (if l.length < 3 then
    ["Only " ++ toString l.length ++ " source(s) found, recommend 3+"] else []) ++
  (if highCredCount l = 0 then ["No high-credibility sources found"] else []) ++
  (if avgSnippetLength l < 50 then ["Evidence snippets are too brief/vague"] else []) ++
  (if (sourceTypesList l).length = 1 then
    ["Evidence from only one source type - consider diversifying"] else []) ++
  (if a.complexity == "complex" && decide (a.entities.length > 0) &&
      decide (coverageScore l a < 0.5) then
    ["Evidence does not cover all key entities in the claim"] else []) ++
  (if (a.temporality == "current" || a.temporality == "recent") &&
      (l.filter (fun e => e.source == "web" || e.source == "web_current")).length = 0 then
    ["No recent web sources for time-sensitive claim"] else [])

/-- The final `recommendation` string. -/
def recommendationText (l : List EvidenceRecord) (a : ClaimAnalysis) : String :=
  if sufficientFlag l a then "SUFFICIENT - Proceed with verification"
  else if l.length < 2 then "INSUFFICIENT - Need more sources"
  else if qualityScore l a < 0.6 then "INSUFFICIENT - Evidence quality too low"
  else "MARGINAL - Verification possible but uncertain"

/-- `assessEvidenceSufficiency(evidence, claimAnalysis)`: the zero-source
early return, else the assessment assembled from the component scores. -/
def assessEvidenceSufficiency (evidence : List EvidenceRecord)
    (claimAnalysis : ClaimAnalysis) : SufficiencyAssessment :=
  if evidence.length = 0 then
    { isSufficient := false
      score := 0
      quantity := quantityScore evidence
      quality := 0
      relevance := 0
      credibility := 0
      missingAspects := ["No evidence sources found"]
      recommendation := "NOT_ENOUGH_EVIDENCE - No sources available" }
  else
    { isSufficient := sufficientFlag evidence claimAnalysis
      score := overallScore evidence claimAnalysis
      quantity := quantityScore evidence
      quality := qualityScore evidence claimAnalysis
      relevance := relevanceScore evidence
      credibility := avgCredibility evidence
      missingAspects := missingAspectsList evidence claimAnalysis
      recommendation := recommendationText evidence claimAnalysis }

/-! ### Self-critique agent (src/backend/agents/critique-agent.js) -/

/-- The default critique returned when the critique completion call throws
(the `catch` branch of `critiqueVerification`). -/
def failOpenCritique : CritiqueResult :=
  { isValid := true
    confidence := 0.5
    issues := []
    suggestions := ["Critique agent failed - proceeding with original result"]
    overallAssessment := "Unable to perform critique due to error" }

/-- `critiqueVerification`, abstracted over the structured-completion outcome:
a successful completion returns its critique, a thrown call fails open. -/
def critiqueVerification (completionOutcome : Except String CritiqueResult) : CritiqueResult :=
  match completionOutcome with
  | Except.ok critique => critique
  | Except.error _ => failOpenCritique

/-- `shouldRegenerateVerification`: false when the critique is valid, else true
iff some issue has critical severity. -/
def shouldRegenerateVerification (critique : CritiqueResult) : Bool :=
  if critique.isValid then false
  else critique.issues.any (fun issue => issue.severity == "critical")

/-- Issue is a critical confidence_miscalibrated issue. -/
def isCritMiscal (i : CritiqueIssue) : Bool :=
  i.type == "confidence_miscalibrated" && i.severity == "critical"

/-- Issue is a critical verdict_unsupported issue. -/
def isCritUnsupported (i : CritiqueIssue) : Bool :=
  i.type == "verdict_unsupported" && i.severity == "critical"

/-- Issue is a critical hallucination issue. -/
def isCritHalluc (i : CritiqueIssue) : Bool :=
  i.type == "hallucination" && i.severity == "critical"

/-- The note appended to `reasoning` for a verdict_unsupported correction. -/
def noteText : String := " [Note: Verdict adjusted due to insufficient evidence support]"

/-- The confidence_miscalibrated branch of the `forEach` body: adjustments are
computed from the ORIGINAL verdict's confidence (`verdict.confidence` in the
source), `"too high"` checked before `"too low"`. -/
def applyMiscal (orig : Verdict) (issue : CritiqueIssue) (acc : Verdict) : Verdict :=
  if isCritMiscal issue then
    if jsIncludes issue.description "too high" then
      { acc with confidence := max 0.3 (orig.confidence - 0.2) }
    else if jsIncludes issue.description "too low" then
      { acc with confidence := min 0.9 (orig.confidence + 0.2) }
    else acc
  else acc

/-- The verdict_unsupported branch of the `forEach` body. -/
def applyUnsupported (issue : CritiqueIssue) (acc : Verdict) : Verdict :=
  if isCritUnsupported issue then
    { acc with verdict := "NOT_ENOUGH_EVIDENCE", reasoning := acc.reasoning ++ noteText }
  else acc

/-- The citation refilter of the hallucination branch
(`verdict.citations?.filter(c => !issue.description.includes(c.title)) || []`):
always filters the ORIGINAL verdict's citations, empty when they are absent. -/
def survivingCitations (orig : Verdict) (issue : CritiqueIssue) : List Citation :=
  (orig.citations.getD []).filter (fun c => !(jsIncludes issue.description c.title))

/-- The hallucination branch of the `forEach` body: replace the citations field. -/
def applyHalluc (orig : Verdict) (issue : CritiqueIssue) (acc : Verdict) : Verdict :=
  if isCritHalluc issue then { acc with citations := some (survivingCitations orig issue) }
  else acc

/-- One iteration of the `critique.issues.forEach` body. -/
def applyIssue (orig : Verdict) (acc : Verdict) (issue : CritiqueIssue) : Verdict :=
  applyHalluc orig issue (applyUnsupported issue (applyMiscal orig issue acc))

/-- `applyCritiqueSuggestions(verdict, critique)`. -/
def applyCritiqueSuggestions (verdict : Verdict) (critique : CritiqueResult) : Verdict :=
  if critique.isValid then verdict
  else critique.issues.foldl (applyIssue verdict) verdict

/-- STEP 6 of `verifyClaimWithPipeline`: run the critique (on the completion
outcome) and apply fixes only when regeneration is indicated. -/
def critiqueStage (verdict : Verdict) (enableCritique : Bool)
    (completionOutcome : Except String CritiqueResult) : Verdict :=
  if enableCritique then
    if shouldRegenerateVerification (critiqueVerification completionOutcome) then
      applyCritiqueSuggestions verdict (critiqueVerification completionOutcome)
    else verdict
  else verdict

/-! ### Evidence deduplication and ranking (src/backend/services/verification-pipeline.js) -/

/-- `const key = item.url + '::' + item.snippet.substring(0, 100)`. -/
def dedupKey (e : EvidenceRecord) : String := e.url ++ "::" ++ e.snippet.take 100

/-- The `seen`-set loop of `deduplicateEvidence`: keep the first occurrence of
each key, preserving order. -/
def dedupPass : List EvidenceRecord → List String → List EvidenceRecord
  | [], _ => []
  | item :: rest, seen =>
    if dedupKey item ∈ seen then dedupPass rest seen
    else item :: dedupPass rest (dedupKey item :: seen)

/-- `a.score || (a.credibility === 'high' ? 0.8 : 0.5)` (a present score of 0 is
falsy in JavaScript, so it also falls back to the default). -/
def effectiveScore (e : EvidenceRecord) : ℚ :=
  match e.score with
  | some s => if s = 0 then (if e.credibility == "high" then 0.8 else 0.5) else s
  | none => if e.credibility == "high" then 0.8 else 0.5

/-- The sort comparator as a boolean "a may come before b" relation: vector
sources first, then descending effective score. -/
def evLE (a b : EvidenceRecord) : Bool :=
  if a.source == "vector" && !(b.source == "vector") then true
  else if !(a.source == "vector") && b.source == "vector" then false
  else decide (effectiveScore b ≤ effectiveScore a)

/-- `deduplicateEvidence`: first-occurrence dedup, then the stable sort. -/
def deduplicateEvidence (evidence : List EvidenceRecord) : List EvidenceRecord :=
  (dedupPass evidence []).mergeSort evLE

/-- The tail of `retrieveEvidence`: empty stays empty, otherwise dedup, rank
and truncate to `maxSources`. -/
def retrieveEvidencePost (gathered : List EvidenceRecord) (maxSources : Nat) :
    List EvidenceRecord :=
  if gathered.length = 0 then [] else (deduplicateEvidence gathered).take maxSources

/-- STEP 3 of `verifyClaimWithPipeline`, abstracted over the raw records the
sources returned: the AGENTIC branch hands the agent's accumulated evidence to
the rest of the pipeline as is, every other strategy goes through
`retrieveEvidence`'s post-processing. -/
def pipelineEvidenceForVerdict (strategy : String) (gathered : List EvidenceRecord)
    (maxSources : Nat) : List EvidenceRecord :=
  if strategy == VerificationStrategy.AGENTIC then gathered
  else retrieveEvidencePost gathered maxSources

/-! ### Per-field views of the correction pass -/

/-- How one `forEach` iteration transforms the confidence field. -/
def confStep (orig : ℚ) (cur : ℚ) (issue : CritiqueIssue) : ℚ :=
  if isCritMiscal issue then
    if jsIncludes issue.description "too high" then max 0.3 (orig - 0.2)
    else if jsIncludes issue.description "too low" then min 0.9 (orig + 0.2)
    else cur
  else cur

/-- How one `forEach` iteration transforms the verdict field. -/
def verdictStep (cur : String) (issue : CritiqueIssue) : String :=
  if isCritUnsupported issue then "NOT_ENOUGH_EVIDENCE" else cur

/-- How one `forEach` iteration transforms the reasoning field. -/
def reasoningStep (cur : String) (issue : CritiqueIssue) : String :=
  if isCritUnsupported issue then cur ++ noteText else cur

/-- How one `forEach` iteration transforms the citations field. -/
def citationsStep (orig : Verdict) (cur : Option (List Citation))
    (issue : CritiqueIssue) : Option (List Citation) :=
  if isCritHalluc issue then some (survivingCitations orig issue) else cur

lemma applyIssue_confidence (orig acc : Verdict) (i : CritiqueIssue) :
    (applyIssue orig acc i).confidence = confStep orig.confidence acc.confidence i := by
  unfold applyIssue applyHalluc applyUnsupported applyMiscal confStep
  split_ifs <;> rfl

lemma applyIssue_verdict (orig acc : Verdict) (i : CritiqueIssue) :
    (applyIssue orig acc i).verdict = verdictStep acc.verdict i := by
  unfold applyIssue applyHalluc applyUnsupported applyMiscal verdictStep
  split_ifs <;> rfl

lemma applyIssue_reasoning (orig acc : Verdict) (i : CritiqueIssue) :
    (applyIssue orig acc i).reasoning = reasoningStep acc.reasoning i := by
  unfold applyIssue applyHalluc applyUnsupported applyMiscal reasoningStep
  split_ifs <;> rfl

lemma applyIssue_citations (orig acc : Verdict) (i : CritiqueIssue) :
    (applyIssue orig acc i).citations = citationsStep orig acc.citations i := by
  unfold applyIssue applyHalluc applyUnsupported applyMiscal citationsStep
  split_ifs <;> rfl

lemma foldl_applyIssue_confidence (orig : Verdict) (issues : List CritiqueIssue) :
    ∀ acc : Verdict, (issues.foldl (applyIssue orig) acc).confidence =
      issues.foldl (confStep orig.confidence) acc.confidence := by
  induction issues with
  | nil => intro acc; rfl
  | cons i rest ih =>
    intro acc
    simp only [List.foldl_cons, ih, applyIssue_confidence]

lemma foldl_applyIssue_verdict (orig : Verdict) (issues : List CritiqueIssue) :
    ∀ acc : Verdict, (issues.foldl (applyIssue orig) acc).verdict =
      issues.foldl verdictStep acc.verdict := by
  induction issues with
  | nil => intro acc; rfl
  | cons i rest ih =>
    intro acc
    simp only [List.foldl_cons, ih, applyIssue_verdict]

lemma foldl_applyIssue_reasoning (orig : Verdict) (issues : List CritiqueIssue) :
    ∀ acc : Verdict, (issues.foldl (applyIssue orig) acc).reasoning =
      issues.foldl reasoningStep acc.reasoning := by
  induction issues with
  | nil => intro acc; rfl
  | cons i rest ih =>
    intro acc
    simp only [List.foldl_cons, ih, applyIssue_reasoning]

lemma foldl_applyIssue_citations (orig : Verdict) (issues : List CritiqueIssue) :
    ∀ acc : Verdict, (issues.foldl (applyIssue orig) acc).citations =
      issues.foldl (citationsStep orig) acc.citations := by
  induction issues with
  | nil => intro acc; rfl
  | cons i rest ih =>
    intro acc
    simp only [List.foldl_cons, ih, applyIssue_citations]

/-! ### Closed forms for the per-field folds -/

lemma confStep_of_not_miscal (orig cur : ℚ) (i : CritiqueIssue)
    (h : isCritMiscal i = false) : confStep orig cur i = cur := by
  simp [confStep, h]

lemma confStep_of_too_high (orig cur : ℚ) (i : CritiqueIssue)
    (h : isCritMiscal i = true) (hh : jsIncludes i.description "too high" = true) :
    confStep orig cur i = max 0.3 (orig - 0.2) := by
  simp [confStep, h, hh]

lemma confStep_of_too_low (orig cur : ℚ) (i : CritiqueIssue)
    (h : isCritMiscal i = true) (hh : jsIncludes i.description "too high" = false)
    (hl : jsIncludes i.description "too low" = true) :
    confStep orig cur i = min 0.9 (orig + 0.2) := by
  simp [confStep, h, hh, hl]

lemma confFold_eq_filter (orig : ℚ) (issues : List CritiqueIssue) :
    ∀ cur : ℚ, issues.foldl (confStep orig) cur =
      (issues.filter isCritMiscal).foldl (confStep orig) cur := by
  induction issues with
  | nil => intro cur; rfl
  | cons i rest ih =>
    intro cur
    by_cases h : isCritMiscal i = true
    · simp only [List.foldl_cons, List.filter_cons_of_pos h, ih]
    · have h' : isCritMiscal i = false := by simpa using h
      rw [List.foldl_cons, List.filter_cons_of_neg h, ih,
        confStep_of_not_miscal orig cur i h']

/-- `isAdjusting`: the issue is a critical confidence_miscalibrated issue whose
description actually triggers one of the two adjustment branches. -/
def isAdjusting (i : CritiqueIssue) : Bool :=
  isCritMiscal i && (jsIncludes i.description "too high" || jsIncludes i.description "too low")

/-- The adjustment a triggering description prescribes, computed from the
original confidence (`"too high"` takes priority over `"too low"`). -/
def confAdjust (orig : ℚ) (d : String) : ℚ :=
  if jsIncludes d "too high" then max 0.3 (orig - 0.2) else min 0.9 (orig + 0.2)

/-- The last issue of the list that triggers a confidence adjustment. -/
def lastAdj : List CritiqueIssue → Option CritiqueIssue
  | [] => none
  | i :: rest =>
    match lastAdj rest with
    | some j => some j
    | none => if isAdjusting i then some i else none

/-- The last critical hallucination issue of the list. -/
def lastHalluc : List CritiqueIssue → Option CritiqueIssue
  | [] => none
  | i :: rest =>
    match lastHalluc rest with
    | some j => some j
    | none => if isCritHalluc i then some i else none

lemma confStep_of_adjusting (orig cur : ℚ) (i : CritiqueIssue)
    (h : isAdjusting i = true) : confStep orig cur i = confAdjust orig i.description := by
  have hm : isCritMiscal i = true := by
    have := h
    simp only [isAdjusting, Bool.and_eq_true] at this
    exact this.1
  have hp : (jsIncludes i.description "too high" || jsIncludes i.description "too low") = true := by
    have := h
    simp only [isAdjusting, Bool.and_eq_true] at this
    exact this.2
  by_cases hh : jsIncludes i.description "too high" = true
  · simp [confStep, confAdjust, hm, hh]
  · have hh' : jsIncludes i.description "too high" = false := by simpa using hh
    have hl : jsIncludes i.description "too low" = true := by
      simpa [hh'] using hp
    simp [confStep, confAdjust, hm, hh', hl]

lemma confFold_lastAdj (orig : ℚ) (issues : List CritiqueIssue) :
    ∀ cur : ℚ, (∀ j ∈ issues, isCritMiscal j = true → isAdjusting j = true) →
      issues.foldl (confStep orig) cur =
        (match lastAdj issues with
          | some i => confAdjust orig i.description
          | none => cur) := by
  induction issues with
  | nil => intro cur _; rfl
  | cons i rest ih =>
    intro cur hall
    have hrest : ∀ j ∈ rest, isCritMiscal j = true → isAdjusting j = true := by
      intro j hj
      exact hall j (List.mem_cons_of_mem i hj)
    simp only [List.foldl_cons]
    rw [ih (confStep orig cur i) hrest]
    cases hl : lastAdj rest with
    | some j => simp [lastAdj, hl]
    | none =>
      by_cases ha : isAdjusting i = true
      · simp [lastAdj, hl, ha, confStep_of_adjusting orig cur i ha]
      · have ha' : isAdjusting i = false := by simpa using ha
        have hm : isCritMiscal i = false := by
          by_cases hm' : isCritMiscal i = true
          · exact absurd (hall i (List.mem_cons_self i rest) hm') (by simp [ha'])
          · simpa using hm'
        simp [lastAdj, hl, ha', confStep_of_not_miscal orig cur i hm]

lemma verdictFold (issues : List CritiqueIssue) :
    ∀ cur : String, issues.foldl verdictStep cur =
      if issues.any isCritUnsupported then "NOT_ENOUGH_EVIDENCE" else cur := by
  induction issues with
  | nil => intro cur; rfl
  | cons i rest ih =>
    intro cur
    by_cases h : isCritUnsupported i = true
    · simp [List.foldl_cons, verdictStep, h, ih]
    · have h' : isCritUnsupported i = false := by simpa using h
      simp [List.foldl_cons, verdictStep, h', ih]

/-- `noteText` repeated n times. -/
def noteRepeat : Nat → String
  | 0 => ""
  | n + 1 => noteText ++ noteRepeat n

lemma reasoningFold (issues : List CritiqueIssue) :
    ∀ cur : String, issues.foldl reasoningStep cur =
      cur ++ noteRepeat (issues.countP isCritUnsupported) := by
  induction issues with
  | nil =>
    intro cur
    simp [List.countP_nil, noteRepeat]
  | cons i rest ih =>
    intro cur
    by_cases h : isCritUnsupported i = true
    · rw [List.foldl_cons, List.countP_cons_of_pos _ _ h, ih]
      show (if isCritUnsupported i then cur ++ noteText else cur) ++ _ = _
      rw [if_pos h, noteRepeat, ← String.append_assoc]
    · have h' : isCritUnsupported i = false := by simpa using h
      rw [List.foldl_cons, List.countP_cons_of_neg _ _ h, ih]
      show (if isCritUnsupported i then cur ++ noteText else cur) ++ _ = _
      rw [if_neg (by simp [h'])]

lemma citFold (orig : Verdict) (issues : List CritiqueIssue) :
    ∀ cur : Option (List Citation), issues.foldl (citationsStep orig) cur =
      (match lastHalluc issues with
        | some i => some (survivingCitations orig i)
        | none => cur) := by
  induction issues with
  | nil => intro cur; rfl
  | cons i rest ih =>
    intro cur
    simp only [List.foldl_cons]
    rw [ih (citationsStep orig cur i)]
    cases hl : lastHalluc rest with
    | some j => simp [lastHalluc, hl]
    | none =>
      by_cases h : isCritHalluc i = true
      · simp [lastHalluc, hl, h, citationsStep]
      · have h' : isCritHalluc i = false := by simpa using h
        simp [lastHalluc, hl, h', citationsStep]

/-! ### applyCritiqueSuggestions, field by field -/

lemma applyCS_confidence (v : Verdict) (c : CritiqueResult) (h : c.isValid = false) :
    (applyCritiqueSuggestions v c).confidence =
      c.issues.foldl (confStep v.confidence) v.confidence := by
  unfold applyCritiqueSuggestions
  rw [if_neg (by simp [h])]
  exact foldl_applyIssue_confidence v c.issues v

lemma applyCS_verdict (v : Verdict) (c : CritiqueResult) (h : c.isValid = false) :
    (applyCritiqueSuggestions v c).verdict =
      if c.issues.any isCritUnsupported then "NOT_ENOUGH_EVIDENCE" else v.verdict := by
  unfold applyCritiqueSuggestions
  rw [if_neg (by simp [h])]
  rw [foldl_applyIssue_verdict v c.issues v, verdictFold]

lemma applyCS_reasoning (v : Verdict) (c : CritiqueResult) (h : c.isValid = false) :
    (applyCritiqueSuggestions v c).reasoning =
      v.reasoning ++ noteRepeat (c.issues.countP isCritUnsupported) := by
  unfold applyCritiqueSuggestions
  rw [if_neg (by simp [h])]
  rw [foldl_applyIssue_reasoning v c.issues v, reasoningFold]

lemma applyCS_citations (v : Verdict) (c : CritiqueResult) (h : c.isValid = false) :
    (applyCritiqueSuggestions v c).citations =
      (match lastHalluc c.issues with
        | some i => some (survivingCitations v i)
        | none => v.citations) := by
  unfold applyCritiqueSuggestions
  rw [if_neg (by simp [h])]
  rw [foldl_applyIssue_citations v c.issues v, citFold]

lemma jsIncludes_empty_needle (hay : String) : jsIncludes hay "" = true := by
  show inclAux "".data hay.data = true
  cases hay.data with
  | nil => rfl
  | cons c t => simp [inclAux, List.isPrefixOf]

/-! ### C6: fail-open critique -/

/-- C6 (amended): when the critique completion call throws, critiqueVerification
returns the fail-open default: isValid true, confidence 0.5, no issues, and the
single suggestion "Critique agent failed - proceeding with original result"
(ASCII hyphen); consequently shouldRegenerateVerification is false and the
critique stage returns the verdict unchanged. -/
theorem critique_fail_open (err : String) (v : Verdict) :
    (critiqueVerification (Except.error err)).isValid = true ∧
    (critiqueVerification (Except.error err)).confidence = 0.5 ∧
    (critiqueVerification (Except.error err)).issues = [] ∧
    (critiqueVerification (Except.error err)).suggestions =
      ["Critique agent failed - proceeding with original result"] ∧
    shouldRegenerateVerification (critiqueVerification (Except.error err)) = false ∧
    critiqueStage v true (Except.error err) = v := by
  exact ⟨rfl, rfl, rfl, rfl, rfl, rfl⟩

/-- C6 counterexample: the fail-open suggestion string uses an ASCII hyphen, not
the em-dash the claim states, so the suggestions list differs from
["Critique agent failed — proceeding with original result"]. -/
theorem critique_fail_open_counterexample :
    (critiqueVerification (Except.error "network error")).suggestions ≠
      ["Critique agent failed — proceeding with original result"] := by
  decide

/-! ### C7: verdict_unsupported correction -/

/-- C7 (amended): for an invalid critique containing a critical
verdict_unsupported issue and no critical confidence_miscalibrated issue, the
correction forces the verdict to NOT_ENOUGH_EVIDENCE, keeps the original
confidence, and appends the explanatory note to the reasoning once per critical
verdict_unsupported issue. -/
theorem correction_unsupported_forces_nee (v : Verdict) (c : CritiqueResult)
    (hvalid : c.isValid = false)
    (hhas : c.issues.any isCritUnsupported = true)
    (hnomis : c.issues.any isCritMiscal = false) :
    (applyCritiqueSuggestions v c).verdict = "NOT_ENOUGH_EVIDENCE" ∧
    (applyCritiqueSuggestions v c).confidence = v.confidence ∧
    (applyCritiqueSuggestions v c).reasoning =
      v.reasoning ++ noteRepeat (c.issues.countP isCritUnsupported) := by
  refine ⟨?_, ?_, applyCS_reasoning v c hvalid⟩
  · rw [applyCS_verdict v c hvalid, if_pos hhas]
  · rw [applyCS_confidence v c hvalid, confFold_eq_filter]
    have hfil : c.issues.filter isCritMiscal = [] := by
      rw [List.filter_eq_nil_iff]
      intro a ha
      have := List.any_eq_false.mp (by simpa using hnomis) a ha
      simpa using this
    rw [hfil]
    rfl

def c7v : Verdict :=
  { verdict := "TRUE", confidence := 0.8, reasoning := "Supported by [1]",
    citations := some [] }

def c7c : CritiqueResult :=
  { isValid := false, confidence := 0.9
    issues := [{ type := "verdict_unsupported", severity := "critical",
                 description := "The evidence does not support a TRUE verdict" }]
    suggestions := [], overallAssessment := "weak" }

/-- C7 witness: the amended theorem applied at a concrete verdict and critique. -/
theorem correction_unsupported_forces_nee_witness :
    (applyCritiqueSuggestions c7v c7c).verdict = "NOT_ENOUGH_EVIDENCE" ∧
    (applyCritiqueSuggestions c7v c7c).confidence = c7v.confidence ∧
    (applyCritiqueSuggestions c7v c7c).reasoning =
      c7v.reasoning ++ noteRepeat (c7c.issues.countP isCritUnsupported) :=
  correction_unsupported_forces_nee c7v c7c rfl (by decide) (by decide)

def c7xv : Verdict :=
  { verdict := "TRUE", confidence := 0.8, reasoning := "Supported by [1]",
    citations := some [] }

def c7xi1 : CritiqueIssue :=
  { type := "verdict_unsupported", severity := "critical",
    description := "The evidence does not support a TRUE verdict" }

def c7xi2 : CritiqueIssue :=
  { type := "confidence_miscalibrated", severity := "critical",
    description := "confidence is too high for this evidence" }

def c7xc : CritiqueResult :=
  { isValid := false, confidence := 0.9
    issues := [c7xi1, c7xi2]
    suggestions := [], overallAssessment := "weak" }

/-- C7 counterexample: a critique that contains a critical verdict_unsupported
issue together with a critical confidence_miscalibrated issue does change the
confidence, so the claim's "confidence unchanged" clause fails as stated. -/
theorem correction_unsupported_counterexample :
    c7xc.isValid = false ∧
    c7xc.issues.any isCritUnsupported = true ∧
    (applyCritiqueSuggestions c7xv c7xc).confidence ≠ c7xv.confidence := by
  refine ⟨rfl, by decide, ?_⟩
  rw [applyCS_confidence c7xv c7xc rfl]
  have hfold : List.foldl (confStep c7xv.confidence) c7xv.confidence c7xc.issues =
      confStep c7xv.confidence
        (confStep c7xv.confidence c7xv.confidence c7xi1) c7xi2 := rfl
  rw [hfold, confStep_of_not_miscal _ _ c7xi1 (by decide),
    confStep_of_too_high _ _ c7xi2 (by decide) (by decide)]
  show max 0.3 (0.8 - 0.2) ≠ (0.8 : ℚ)
  rw [show (0.8 : ℚ) - 0.2 = 0.6 by norm_num, max_eq_right (by norm_num : (0.3:ℚ) ≤ 0.6)]
  norm_num

/-! ### C8: confidence_miscalibrated correction -/

/-- C8 (amended): for an invalid critique whose critical
confidence_miscalibrated issues are exactly one issue i, the corrected
confidence is computed from the original confidence: max(0.3, orig - 0.2) when
i's description contains "too high" (this branch takes priority), otherwise
min(0.9, orig + 0.2) when it contains "too low", otherwise unchanged. -/
theorem correction_miscalibrated_adjusts (v : Verdict) (c : CritiqueResult)
    (i : CritiqueIssue) (hvalid : c.isValid = false)
    (hone : c.issues.filter isCritMiscal = [i]) :
    (applyCritiqueSuggestions v c).confidence =
      (if jsIncludes i.description "too high" then max 0.3 (v.confidence - 0.2)
       else if jsIncludes i.description "too low" then min 0.9 (v.confidence + 0.2)
       else v.confidence) := by
  have hmem : i ∈ c.issues.filter isCritMiscal := by rw [hone]; exact List.mem_cons_self i []
  have hm : isCritMiscal i = true := (List.mem_filter.mp hmem).2
  rw [applyCS_confidence v c hvalid, confFold_eq_filter, hone]
  show confStep v.confidence v.confidence i = _
  simp [confStep, hm]

def c8v : Verdict :=
  { verdict := "TRUE", confidence := 0.8, reasoning := "R", citations := some [] }

def c8i : CritiqueIssue :=
  { type := "confidence_miscalibrated", severity := "critical",
    description := "confidence is too high given weak evidence" }

def c8c : CritiqueResult :=
  { isValid := false, confidence := 0.9, issues := [c8i],
    suggestions := [], overallAssessment := "weak" }

/-- C8 witness: the amended theorem applied at a concrete critique with one
critical "too high" miscalibration issue. -/
theorem correction_miscalibrated_adjusts_witness :
    (applyCritiqueSuggestions c8v c8c).confidence =
      (if jsIncludes c8i.description "too high" then max 0.3 (c8v.confidence - 0.2)
       else if jsIncludes c8i.description "too low" then min 0.9 (c8v.confidence + 0.2)
       else c8v.confidence) :=
  correction_miscalibrated_adjusts c8v c8c c8i rfl (by decide)

def c8xv : Verdict :=
  { verdict := "TRUE", confidence := 0.8, reasoning := "R", citations := some [] }

def c8xi : CritiqueIssue :=
  { type := "confidence_miscalibrated", severity := "critical",
    description := "confidence is both too high and too low depending on reading" }

def c8xc : CritiqueResult :=
  { isValid := false, confidence := 0.9, issues := [c8xi],
    suggestions := [], overallAssessment := "weak" }

/-- C8 counterexample: for a critical confidence_miscalibrated issue whose
description contains "too low" (as well as "too high"), the corrected
confidence is NOT min(0.9, orig + 0.2): the source checks "too high" first and
returns max(0.3, orig - 0.2), refuting the claim's "too low" clause as stated. -/
theorem correction_miscalibrated_counterexample :
    c8xc.isValid = false ∧
    jsIncludes c8xi.description "too low" = true ∧
    (applyCritiqueSuggestions c8xv c8xc).confidence ≠ min 0.9 (c8xv.confidence + 0.2) := by
  refine ⟨rfl, by decide, ?_⟩
  rw [applyCS_confidence c8xv c8xc rfl]
  have hfold : List.foldl (confStep c8xv.confidence) c8xv.confidence c8xc.issues =
      confStep c8xv.confidence c8xv.confidence c8xi := rfl
  rw [hfold, confStep_of_too_high _ _ c8xi (by decide) (by decide)]
  show max 0.3 (0.8 - 0.2) ≠ min 0.9 (0.8 + 0.2)
  rw [show (0.8 : ℚ) - 0.2 = 0.6 by norm_num, show (0.8 : ℚ) + 0.2 = 1 by norm_num,
    max_eq_right (by norm_num : (0.3:ℚ) ≤ 0.6), min_eq_left (by norm_num : (0.9:ℚ) ≤ 1)]
  norm_num

/-! ### C9: adjustments never accumulate -/

/-- C9: in the correction step every confidence adjustment is computed from the
ORIGINAL verdict's confidence: for an invalid critique whose critical
confidence_miscalibrated issues all mention "too high" or "too low", the
returned confidence equals the adjustment prescribed by the last such issue
applied to the original confidence alone — adjustments never accumulate. -/
theorem correction_confidence_from_original (v : Verdict) (c : CritiqueResult)
    (i : CritiqueIssue) (hvalid : c.isValid = false)
    (hall : ∀ j ∈ c.issues, isCritMiscal j = true → isAdjusting j = true)
    (hlast : lastAdj c.issues = some i) :
    (applyCritiqueSuggestions v c).confidence = confAdjust v.confidence i.description := by
  rw [applyCS_confidence v c hvalid, confFold_lastAdj v.confidence c.issues v.confidence hall,
    hlast]

def c9v : Verdict :=
  { verdict := "TRUE", confidence := 0.8, reasoning := "R", citations := some [] }

def c9i1 : CritiqueIssue :=
  { type := "confidence_miscalibrated", severity := "critical",
    description := "confidence is too high" }

def c9i2 : CritiqueIssue :=
  { type := "confidence_miscalibrated", severity := "critical",
    description := "confidence is too low" }

def c9c : CritiqueResult :=
  { isValid := false, confidence := 0.9, issues := [c9i1, c9i2],
    suggestions := [], overallAssessment := "mixed" }

/-- C9 witness: two critical miscalibration issues; the result is the last
issue's adjustment of the original confidence (min(0.9, 0.8 + 0.2)), not an
accumulation through the first issue's decrease. -/
theorem correction_confidence_from_original_witness :
    (applyCritiqueSuggestions c9v c9c).confidence = confAdjust c9v.confidence c9i2.description :=
  correction_confidence_from_original c9v c9c c9i2 rfl (by decide) (by decide)

/-! ### C10: hallucination citation pruning -/

/-- C10 (amended): in the correction step (invalid critique) only the LAST
critical hallucination issue takes effect: the corrected citations field equals
the ORIGINAL citations (empty when null/undefined) filtered by that issue's
description — a citation is removed exactly when its title occurs as a
substring of that issue's description — and in particular no surviving citation
has an empty title. -/
theorem correction_hallucination_citations (v : Verdict) (c : CritiqueResult)
    (i : CritiqueIssue) (hvalid : c.isValid = false)
    (hlast : lastHalluc c.issues = some i) :
    (applyCritiqueSuggestions v c).citations = some (survivingCitations v i) ∧
    survivingCitations v i =
      (v.citations.getD []).filter (fun ct => !(jsIncludes i.description ct.title)) ∧
    ∀ ct ∈ survivingCitations v i, ct.title ≠ "" := by
  refine ⟨?_, rfl, ?_⟩
  · rw [applyCS_citations v c hvalid, hlast]
  · intro ct hct hemp
    have hmem := List.mem_filter.mp hct
    have : jsIncludes i.description ct.title = false := by simpa using hmem.2
    rw [hemp, jsIncludes_empty_needle] at this
    exact absurd this (by simp)

def c10v : Verdict :=
  { verdict := "TRUE", confidence := 0.8, reasoning := "R",
    citations := some [{ index := 1, title := "Alpha Report", url := "https://a.example",
                         relevance := "direct" }] }

def c10i : CritiqueIssue :=
  { type := "hallucination", severity := "critical",
    description := "The citation Alpha Report appears fabricated" }

def c10c : CritiqueResult :=
  { isValid := false, confidence := 0.9, issues := [c10i],
    suggestions := [], overallAssessment := "bad" }

/-- C10 witness: a single critical hallucination issue whose description names
the only citation's title removes that citation. -/
theorem correction_hallucination_citations_witness :
    (applyCritiqueSuggestions c10v c10c).citations = some (survivingCitations c10v c10i) ∧
    survivingCitations c10v c10i =
      (c10v.citations.getD []).filter (fun ct => !(jsIncludes c10i.description ct.title)) ∧
    ∀ ct ∈ survivingCitations c10v c10i, ct.title ≠ "" :=
  correction_hallucination_citations c10v c10c c10i rfl (by decide)

def c10xcit : Citation :=
  { index := 1, title := "Alpha Report", url := "https://a.example", relevance := "direct" }

def c10xv : Verdict :=
  { verdict := "TRUE", confidence := 0.8, reasoning := "R", citations := some [c10xcit] }

def c10xi1 : CritiqueIssue :=
  { type := "hallucination", severity := "critical",
    description := "The citation Alpha Report appears fabricated" }

def c10xi2 : CritiqueIssue :=
  { type := "hallucination", severity := "critical",
    description := "A quoted statistic has no source at all" }

def c10xc : CritiqueResult :=
  { isValid := false, confidence := 0.9, issues := [c10xi1, c10xi2],
    suggestions := [], overallAssessment := "bad" }

/-- C10 counterexample: with two critical hallucination issues, each filter
starts again from the original citations, so a citation whose title occurs in
the FIRST issue's description survives (the second filter restores it) —
refuting "for every critical issue of type hallucination, a citation is removed
exactly when its title occurs in that issue's description". -/
theorem correction_hallucination_counterexample :
    c10xc.isValid = false ∧
    c10xi1 ∈ c10xc.issues ∧
    isCritHalluc c10xi1 = true ∧
    jsIncludes c10xi1.description c10xcit.title = true ∧
    (applyCritiqueSuggestions c10xv c10xc).citations = some [c10xcit] := by
  refine ⟨rfl, by decide, by decide, by decide, ?_⟩
  rw [applyCS_citations c10xv c10xc rfl]
  have hlast : lastHalluc c10xc.issues = some c10xi2 := by decide
  rw [hlast]
  decide

/-! ### C2: routing priority -/

/-- C2: any ClaimAnalysis satisfying both the AGENTIC predicate and the SIMPLE
predicate routes to AGENTIC — the AGENTIC rule is evaluated first and the first
matching rule wins. -/
theorem routeClaim_agentic_priority (a : ClaimAnalysis)
    (hagentic : needsAgenticVerification a = true)
    (_hsimple : canUseSimpleVerification a = true) :
    routeClaim a = VerificationStrategy.AGENTIC := by
  rw [routeClaim, if_pos hagentic]

def c2a : ClaimAnalysis :=
  { type := "fact", entities := [], keywords := ["disputed"],
    temporality := "historical", complexity := "simple", isRecent := false }

/-- C2 witness: a simple, historical, zero-entity fact claim whose keyword
"disputed" also satisfies the AGENTIC predicate routes to AGENTIC. -/
theorem routeClaim_agentic_priority_witness :
    routeClaim c2a = VerificationStrategy.AGENTIC :=
  routeClaim_agentic_priority c2a (by decide) (by decide)

/-! ### C3: sufficiency zero-case -/

/-- C3 (amended): for every ClaimAnalysis, assessing an empty evidence list
short-circuits with isSufficient false, score 0, and the recommendation
"NOT_ENOUGH_EVIDENCE - No sources available" (ASCII hyphen). -/
theorem assess_empty_evidence (a : ClaimAnalysis) :
    (assessEvidenceSufficiency [] a).isSufficient = false ∧
    (assessEvidenceSufficiency [] a).score = 0 ∧
    (assessEvidenceSufficiency [] a).recommendation =
      "NOT_ENOUGH_EVIDENCE - No sources available" :=
  ⟨rfl, rfl, rfl⟩

def c3a : ClaimAnalysis :=
  { type := "fact", entities := [], keywords := [], temporality := "timeless",
    complexity := "simple", isRecent := false }

/-- C3 counterexample: the recommendation string uses an ASCII hyphen, not the
em-dash of the claim's exact string "NOT_ENOUGH_EVIDENCE — No sources available". -/
theorem assess_empty_evidence_counterexample :
    (assessEvidenceSufficiency [] c3a).recommendation ≠
      "NOT_ENOUGH_EVIDENCE — No sources available" := by
  decide

/-! ### C5: dedup idempotence -/

lemma evLE_trans : ∀ a b c : EvidenceRecord,
    evLE a b = true → evLE b c = true → evLE a c = true := by
  intro a b c hab hbc
  rcases Bool.eq_false_or_eq_true (a.source == "vector") with hva | hva <;>
  rcases Bool.eq_false_or_eq_true (b.source == "vector") with hvb | hvb <;>
  rcases Bool.eq_false_or_eq_true (c.source == "vector") with hvc | hvc <;>
  simp [evLE, hva, hvb, hvc] at hab hbc ⊢ <;>
  first
  | rfl
  | exact le_trans hbc hab

lemma evLE_total : ∀ a b : EvidenceRecord, (evLE a b || evLE b a) = true := by
  intro a b
  rcases Bool.eq_false_or_eq_true (a.source == "vector") with hva | hva <;>
  rcases Bool.eq_false_or_eq_true (b.source == "vector") with hvb | hvb <;>
  simp [evLE, hva, hvb] <;>
  exact le_total (effectiveScore b) (effectiveScore a)

lemma dedupPass_key_not_mem_seen :
    ∀ (l : List EvidenceRecord) (seen : List String),
      ∀ e ∈ dedupPass l seen, dedupKey e ∉ seen := by
  intro l
  induction l with
  | nil => intro seen e he; simp [dedupPass] at he
  | cons x rest ih =>
    intro seen e he
    rw [dedupPass] at he
    by_cases hx : dedupKey x ∈ seen
    · rw [if_pos hx] at he
      exact ih seen e he
    · rw [if_neg hx] at he
      rcases List.mem_cons.mp he with heq | hmem
      · subst heq; exact hx
      · intro hc
        exact (ih _ e hmem) (List.mem_cons_of_mem _ hc)

lemma dedupPass_pairwise :
    ∀ (l : List EvidenceRecord) (seen : List String),
      List.Pairwise (fun a b => dedupKey a ≠ dedupKey b) (dedupPass l seen) := by
  intro l
  induction l with
  | nil => intro seen; simp [dedupPass]
  | cons x rest ih =>
    intro seen
    rw [dedupPass]
    by_cases hx : dedupKey x ∈ seen
    · rw [if_pos hx]; exact ih seen
    · rw [if_neg hx]
      refine List.Pairwise.cons ?_ (ih _)
      intro e he hkey
      have hnot := dedupPass_key_not_mem_seen rest _ e he
      exact hnot (by rw [← hkey]; exact List.mem_cons_self _ _)

lemma dedupPass_eq_self :
    ∀ (l : List EvidenceRecord) (seen : List String),
      List.Pairwise (fun a b => dedupKey a ≠ dedupKey b) l →
      (∀ e ∈ l, dedupKey e ∉ seen) → dedupPass l seen = l := by
  intro l
  induction l with
  | nil => intro seen _ _; rfl
  | cons x rest ih =>
    intro seen hpw hseen
    rw [dedupPass, if_neg (hseen x (List.mem_cons_self x rest))]
    congr 1
    refine ih _ hpw.of_cons ?_
    intro e he hc
    rcases List.mem_cons.mp hc with heq | hmem
    · exact (List.rel_of_pairwise_cons hpw he) heq.symm
    · exact hseen e (List.mem_cons_of_mem x he) hmem

/-- C5: the Orchestrator's deduplicate-and-rank function is idempotent:
deduplicateEvidence (deduplicateEvidence X) = deduplicateEvidence X for every
evidence list X. -/
theorem deduplicateEvidence_idempotent (X : List EvidenceRecord) :
    deduplicateEvidence (deduplicateEvidence X) = deduplicateEvidence X := by
  unfold deduplicateEvidence
  have hpw : List.Pairwise (fun a b => dedupKey a ≠ dedupKey b)
      ((dedupPass X []).mergeSort evLE) := by
    refine ((List.mergeSort_perm (dedupPass X []) evLE).pairwise_iff ?_).mpr
      (dedupPass_pairwise X [])
    intro x y h
    exact h.symm
  rw [dedupPass_eq_self _ [] hpw (by intro e _he h; simp at h)]
  exact List.mergeSort_of_sorted
    (List.sorted_mergeSort evLE_trans evLE_total (dedupPass X []))

/-! ### C1: post-processing is applied per strategy -/

/-- C1 (amended): for the SIMPLE and HYBRID strategies (any non-AGENTIC
strategy), the evidence handed to verdict generation is deduplicated by
url + "::" + first-100-chars-of-snippet keeping first occurrences, stably
sorted vector-first then by descending effective score, and truncated to
maxSources — i.e. it equals `(deduplicateEvidence gathered).take maxSources`.
The AGENTIC strategy bypasses this post-processing (see the counterexample). -/
theorem nonagentic_evidence_postprocessed (s : String) (gathered : List EvidenceRecord)
    (maxSources : Nat) (h : s ≠ VerificationStrategy.AGENTIC) :
    pipelineEvidenceForVerdict s gathered maxSources =
      (deduplicateEvidence gathered).take maxSources := by
  unfold pipelineEvidenceForVerdict retrieveEvidencePost
  rw [if_neg (by simpa using h)]
  by_cases hg : gathered.length = 0
  · rw [if_pos hg]
    have hnil : gathered = [] := List.length_eq_zero.mp hg
    subst hnil
    simp [deduplicateEvidence, dedupPass, List.mergeSort_nil]
  · rw [if_neg hg]

def c1e : EvidenceRecord :=
  { title := "Duplicate", url := "https://example.com/a", snippet := "the same snippet",
    credibility := "high", source := "web", score := none }

/-- C1 witness: the amended theorem applied at the HYBRID strategy on a list
with a duplicate record. -/
theorem nonagentic_evidence_postprocessed_witness :
    pipelineEvidenceForVerdict VerificationStrategy.HYBRID [c1e, c1e] 8 =
      (deduplicateEvidence [c1e, c1e]).take 8 :=
  nonagentic_evidence_postprocessed VerificationStrategy.HYBRID [c1e, c1e] 8 (by decide)

/-- C1 counterexample: under the AGENTIC strategy the pipeline hands the
agent's accumulated evidence to verdict generation without the claimed
post-processing: a duplicated record is not deduplicated. -/
theorem agentic_evidence_not_postprocessed :
    pipelineEvidenceForVerdict VerificationStrategy.AGENTIC [c1e, c1e] 10 ≠
      (deduplicateEvidence [c1e, c1e]).take 10 := by
  have h1 : pipelineEvidenceForVerdict VerificationStrategy.AGENTIC [c1e, c1e] 10 =
      [c1e, c1e] := rfl
  have h2 : dedupPass [c1e, c1e] [] = [c1e] := by
    rw [dedupPass, if_neg (by simp)]
    rw [dedupPass, if_pos (List.mem_cons_self _ _)]
    rfl
  have h3 : deduplicateEvidence [c1e, c1e] = [c1e] := by
    unfold deduplicateEvidence
    rw [h2, List.mergeSort_singleton]
  rw [h1, h3]
  simp

/-! ### C4: sufficiency score monotonicity -/

lemma credibilityWeight_le_one (c : String) : credibilityWeight c ≤ 1 := by
  unfold credibilityWeight
  split_ifs <;> norm_num

lemma sumCred_le_length (l : List EvidenceRecord) : sumCred l ≤ l.length := by
  induction l with
  | nil => simp [sumCred]
  | cons x t ih =>
    have hx := credibilityWeight_le_one x.credibility
    simp only [sumCred, List.map_cons, List.sum_cons, List.length_cons] at *
    push_cast
    linarith

lemma sumCred_append (E : List EvidenceRecord) (r : EvidenceRecord) :
    sumCred (E ++ [r]) = sumCred E + credibilityWeight r.credibility := by
  simp [sumCred]

lemma sumSnip_append (E : List EvidenceRecord) (r : EvidenceRecord) :
    sumSnip (E ++ [r]) = sumSnip E + r.snippet.length := by
  simp [sumSnip]

lemma length_q_pos (E : List EvidenceRecord) (h : E ≠ []) : (0 : ℚ) < E.length := by
  have : 0 < E.length := List.length_pos.mpr h
  exact_mod_cast this

lemma quantityScore_mono (E : List EvidenceRecord) (r : EvidenceRecord) :
    quantityScore E ≤ quantityScore (E ++ [r]) := by
  unfold quantityScore
  refine min_le_min ?_ le_rfl
  rw [List.length_append, List.length_singleton]
  push_cast
  linarith

lemma avgCredibility_mono (E : List EvidenceRecord) (r : EvidenceRecord)
    (h : E ≠ []) (hw : credibilityWeight r.credibility = 1) :
    avgCredibility E ≤ avgCredibility (E ++ [r]) := by
  unfold avgCredibility
  have hn := length_q_pos E h
  have hS := sumCred_le_length E
  rw [sumCred_append, hw, List.length_append, List.length_singleton]
  push_cast
  rw [div_le_div_iff hn (by linarith)]
  nlinarith

lemma avgSnippetLength_mono (E : List EvidenceRecord) (r : EvidenceRecord)
    (h : E ≠ []) (hs : sumSnip E ≤ (E.length : ℚ) * r.snippet.length) :
    avgSnippetLength E ≤ avgSnippetLength (E ++ [r]) := by
  unfold avgSnippetLength
  have hn := length_q_pos E h
  rw [sumSnip_append, List.length_append, List.length_singleton]
  push_cast
  rw [div_le_div_iff hn (by linarith)]
  nlinarith

lemma relevanceScore_mono (E : List EvidenceRecord) (r : EvidenceRecord)
    (h : E ≠ []) (hs : sumSnip E ≤ (E.length : ℚ) * r.snippet.length) :
    relevanceScore E ≤ relevanceScore (E ++ [r]) := by
  unfold relevanceScore
  refine min_le_min ?_ le_rfl
  exact (div_le_div_right (by norm_num)).mpr (avgSnippetLength_mono E r h hs)

lemma sourceTypesList_mono (E : List EvidenceRecord) (r : EvidenceRecord) :
    (sourceTypesList E).length ≤ (sourceTypesList (E ++ [r])).length := by
  unfold sourceTypesList
  rw [← List.card_toFinset, ← List.card_toFinset]
  apply Finset.card_le_card
  rw [List.map_append, List.filter_append, List.toFinset_append]
  exact Finset.subset_union_left

lemma diversityScore_mono (E : List EvidenceRecord) (r : EvidenceRecord) :
    diversityScore E ≤ diversityScore (E ++ [r]) := by
  unfold diversityScore
  refine min_le_min ?_ le_rfl
  have := sourceTypesList_mono E r
  have hc : ((sourceTypesList E).length : ℚ) ≤ ((sourceTypesList (E ++ [r])).length : ℚ) := by
    exact_mod_cast this
  linarith

lemma entityMentioned_mono (E : List EvidenceRecord) (r : EvidenceRecord) (x : String)
    (hx : entityMentioned E x = true) : entityMentioned (E ++ [r]) x = true := by
  unfold entityMentioned at *
  rw [List.any_append]
  simp [hx]

lemma coverageScore_mono (E : List EvidenceRecord) (r : EvidenceRecord) (a : ClaimAnalysis) :
    coverageScore E a ≤ coverageScore (E ++ [r]) a := by
  unfold coverageScore
  split_ifs with h1 h2
  · have hcount : (a.entities.filter (entityMentioned E)).length ≤
        (a.entities.filter (entityMentioned (E ++ [r]))).length := by
      rw [← List.countP_eq_length_filter, ← List.countP_eq_length_filter]
      exact List.countP_mono_left (fun x _hx => entityMentioned_mono E r x)
    have hden : (0 : ℚ) < a.entities.length := by exact_mod_cast h2
    rw [div_le_div_iff hden hden]
    have : ((a.entities.filter (entityMentioned E)).length : ℚ) ≤
        ((a.entities.filter (entityMentioned (E ++ [r]))).length : ℚ) := by
      exact_mod_cast hcount
    nlinarith
  · exact le_rfl
  · exact le_rfl

lemma assess_score_eq (E : List EvidenceRecord) (a : ClaimAnalysis) (h : E ≠ []) :
    (assessEvidenceSufficiency E a).score = overallScore E a := by
  unfold assessEvidenceSufficiency
  rw [if_neg (by simpa [List.length_eq_zero] using h)]

/-- C4 (amended): appending a high-credibility EvidenceRecord whose snippet is
at least as long as the current average snippet length to a non-empty evidence
list never decreases the overall sufficiency score. -/
theorem assess_score_mono_high_cred (E : List EvidenceRecord) (a : ClaimAnalysis)
    (r : EvidenceRecord) (hne : E ≠ [])
    (hw : credibilityWeight r.credibility = 1)
    (hs : sumSnip E ≤ (E.length : ℚ) * r.snippet.length) :
    (assessEvidenceSufficiency E a).score ≤
      (assessEvidenceSufficiency (E ++ [r]) a).score := by
  rw [assess_score_eq E a hne, assess_score_eq (E ++ [r]) a (by simp)]
  have h1 := quantityScore_mono E r
  have h2 := avgCredibility_mono E r hne hw
  have h3 := relevanceScore_mono E r hne hs
  have h4 := diversityScore_mono E r
  have h5 := coverageScore_mono E r a
  unfold overallScore qualityScore
  linarith

def c4e : EvidenceRecord :=
  { title := "KB fact", url := "internal://knowledge-base", snippet := "",
    credibility := "high", source := "vector", score := none }

def c4r : EvidenceRecord :=
  { title := "KB fact 2", url := "https://example.org/2", snippet := "",
    credibility := "high", source := "vector", score := none }

def c4a : ClaimAnalysis :=
  { type := "fact", entities := [], keywords := [], temporality := "timeless",
    complexity := "simple", isRecent := false }

/-- C4 witness: the amended theorem applied at a concrete one-element list and
a high-credibility record whose snippet is as long as the average. -/
theorem assess_score_mono_high_cred_witness :
    (assessEvidenceSufficiency [c4e] c4a).score ≤
      (assessEvidenceSufficiency ([c4e] ++ [c4r]) c4a).score :=
  assess_score_mono_high_cred [c4e] c4a c4r (by decide) rfl
    (by norm_num [sumSnip, c4e, c4r])

def c4xe1 : EvidenceRecord :=
  { title := "Long source", url := "https://example.org/long",
    snippet := "aaaaaaaaaaaaaaaaaaaaaaaaaaaaaaaaaaaaaaaaaaaaaaaaaaaaaaaaaaaaaaaaaaaaaaaaaaaaaaaaaaaaaaaaaaaaaaaaaaaaaaaaaaaaaaaaaaaaaaaaaaaaaaaaaaaaaaaaaaaaaaaaaaaaaaaaaaaaaaaaaaaaaaaaaaaaaaaaaaaaaaaaaaaaaaaaaaaaaaaa",
    credibility := "high", source := "vector", score := none }

def c4xr : EvidenceRecord :=
  { title := "Empty snippet", url := "https://example.org/short", snippet := "",
    credibility := "high", source := "vector", score := none }

def c4xa : ClaimAnalysis :=
  { type := "fact", entities := [], keywords := [], temporality := "timeless",
    complexity := "simple", isRecent := false }

/-- C4 counterexample: appending a high-credibility record with an EMPTY
snippet to a non-empty list halves the average snippet length; the relevance
loss (0.7 * 0.3 * 0.5) outweighs the quantity gain (0.3 * 1/3), so the score
drops from 299/400 (0.7475) to 297/400 (0.7425). -/
theorem assess_monotonicity_counterexample :
    c4xr.credibility = "high" ∧ ([c4xe1] : List EvidenceRecord) ≠ [] ∧
    (assessEvidenceSufficiency ([c4xe1] ++ [c4xr]) c4xa).score <
      (assessEvidenceSufficiency [c4xe1] c4xa).score := by
  refine ⟨rfl, by decide, ?_⟩
  rw [assess_score_eq _ _ (by decide), assess_score_eq _ _ (by decide)]
  have hst1 : sourceTypesList [c4xe1] = ["vector"] := rfl
  have hst2 : sourceTypesList ([c4xe1] ++ [c4xr]) = ["vector"] := rfl
  have hcov1 : coverageScore [c4xe1] c4xa = 1 := rfl
  have hcov2 : coverageScore ([c4xe1] ++ [c4xr]) c4xa = 1 := rfl
  have hcw1 : credibilityWeight c4xe1.credibility = 1 := rfl
  have hcw2 : credibilityWeight c4xr.credibility = 1 := rfl
  have hsl1 : c4xe1.snippet.length = 200 := rfl
  have hsl2 : c4xr.snippet.length = 0 := rfl
  have hv1 : overallScore [c4xe1] c4xa = 299/400 := by
    simp only [overallScore, qualityScore, quantityScore, avgCredibility,
      relevanceScore, avgSnippetLength, diversityScore, sumCred, sumSnip]
    rw [hst1, hcov1]
    simp only [List.map_cons, List.map_nil, List.sum_cons, List.sum_nil,
      List.length_cons, List.length_nil, List.length_singleton]
    rw [hcw1, hsl1]
    norm_num [min_def]
  have hv2 : overallScore ([c4xe1] ++ [c4xr]) c4xa = 297/400 := by
    simp only [overallScore, qualityScore, quantityScore, avgCredibility,
      relevanceScore, avgSnippetLength, diversityScore, sumCred, sumSnip]
    rw [hst2, hcov2]
    simp only [List.cons_append, List.nil_append, List.map_cons, List.map_nil,
      List.sum_cons, List.sum_nil, List.length_cons, List.length_nil,
      List.length_singleton]
    rw [hcw1, hcw2, hsl1, hsl2]
    norm_num [min_def]
  rw [hv1, hv2]
  norm_num
